import Mathlib

/-!
Verification development for the sshdb tunnel package.

The definitions below are a shallow embedding of the package's core file
(`sshdb.go`): the `Tunnel` state record mirrors the Go struct, and each
operation (`New`, `OpenConnector`, `DialContext`, `Close`/`reset`,
`sshConn.Close`, the watcher goroutine body, and the deadline handlers) is
translated into a pure state-passing function.  External collaborators are
modelled at their boundary: `splitHostPort` follows Go's
`net.SplitHostPort`, and the forwarded-channel deadline setters follow the
`golang.org/x/crypto/ssh` channel connection, which rejects every deadline
with a fixed error.  Outcomes of network calls (handshake, channel open,
close errors) and of the runtime's choice between two ready select cases are
passed in as explicit parameters.
-/

namespace Sshdb

/-- Modelled from Go `strings.Trim(s, " ")`: removes leading and trailing
space characters. -/
def trimSpaces (s : String) : String :=
  (((s.toList.dropWhile (· = ' ')).reverse.dropWhile (· = ' ')).reverse).asString

/-- First index of a character in a list, if any. -/
def firstIdx (cs : List Char) (c : Char) : Option Nat :=
  cs.findIdx? (· = c)

/-- Last index of a character in a list, if any. -/
def lastIdx (cs : List Char) (c : Char) : Option Nat :=
  match cs.reverse.findIdx? (· = c) with
  | none => none
  | some i => some (cs.length - 1 - i)

/-- Error text used by `net.SplitHostPort` for a missing port. -/
def missingPort : String := "missing port in address"

/-- Error text used by `net.SplitHostPort` for too many colons. -/
def tooManyColons : String := "too many colons in address"

/-- Rendering of Go's `net.AddrError`: `"address " + Addr + ": " + Err`. -/
def addrErr (addr why : String) : String :=
  "address " ++ addr ++ ": " ++ why

/-- Modelled from Go `net.SplitHostPort`: splits a network address of the
form "host:port", "host%zone:port", "[host]:port" or "[host%zone]:port"
into host and port.  The port is everything after the last colon; bracketed
forms expect the closing bracket immediately before that colon; stray
brackets or extra colons are rejected.  Port digits are not validated. -/
def splitHostPort (hostPort : String) : Except String (String × String) :=
  let cs := hostPort.toList
  match lastIdx cs ':' with
  | none => .error (addrErr hostPort missingPort)
  | some i =>
    if cs.head? = some '[' then
      match firstIdx cs ']' with
      | none => .error (addrErr hostPort "missing \x27]\x27 in address")
      | some e =>
        if e + 1 = cs.length then .error (addrErr hostPort missingPort)
        else if e + 1 = i then
          if (firstIdx (cs.drop 1) '[').isSome then
            .error (addrErr hostPort "missing brackets in address")
          else if (firstIdx (cs.drop (e + 1)) ']').isSome then
            .error (addrErr hostPort "unexpected \x27]\x27 in address")
          else .ok (((cs.drop 1).take (e - 1)).asString, (cs.drop (i + 1)).asString)
        else if cs.get? (e + 1) = some ':' then
          .error (addrErr hostPort tooManyColons)
        else .error (addrErr hostPort missingPort)
    else
      if (firstIdx (cs.take i) ':').isSome then
        .error (addrErr hostPort tooManyColons)
      else if (firstIdx cs '[').isSome then
        .error (addrErr hostPort "missing brackets in address")
      else if (firstIdx cs ']').isSome then
        .error (addrErr hostPort "unexpected \x27]\x27 in address")
      else .ok ((cs.take i).asString, (cs.drop (i + 1)).asString)

/-- What a database connector reports as its owning driver. -/
inductive DriverRef where
  | native (nm : String) : DriverRef
  | tunnelSelf : DriverRef
deriving DecidableEq, Repr

/-- A backend-produced `driver.Connector` value: an opaque payload plus the
driver it reports from its `Driver()` method. -/
structure DbConnector where
  payload : String
  drv : DriverRef
deriving DecidableEq, Repr

/-- The `sshdb.Driver` interface: a stable name plus a connector builder
that may fail on a malformed connection string. -/
structure Driver where
  name : String
  impl : String → Except String DbConnector

/-- The `sshdb.Tunnel` struct of `sshdb.go`, with the channels, the ssh
client and the bookkeeping maps made explicit, plus instrumentation that
records externally observable events (handshakes performed, underlying
stream closes). -/
structure Tunnel where
  /-- whether the current `resetChan` is closed -/
  resetClosed : Bool
  /-- index of the current `resetChan` instance; 0 is the one `New` makes -/
  epoch : Nat
  /-- Field `tun.client`: `none` models a nil `*ssh.Client` -/
  client : Option Nat
  /-- whether the stored client has not been closed by `reset` -/
  clientOpen : Bool
  /-- Field `tun.sshconns`: ids of tracked connections -/
  sshconns : Finset Nat
  /-- Field `tun.connectors`: cache from `name:dsn` keys to connectors -/
  connectors : List (String × DbConnector)
  /-- Field `tun.ignoreSetDeadlineRequest` of the source struct -/
  ignoreSetDeadlineRequest : Bool
  /-- epochs whose watcher goroutine is still pending -/
  watchers : List Nat
  /-- source of fresh tracked-connection ids -/
  nextConnId : Nat
  /-- number of `ssh.Dial` handshakes performed so far -/
  dialCount : Nat
  /-- ids of connections whose underlying stream received a Close call,
  with multiplicity -/
  streamCloses : Multiset Nat
deriving DecidableEq

/-- The tunnel state `New` returns on success: closed reset channel, no
client, empty caches and sets. -/
def initTunnel : Tunnel :=
  { resetClosed := true
    epoch := 0
    client := none
    clientOpen := false
    sshconns := (∅ : Finset Nat)
    connectors := []
    ignoreSetDeadlineRequest := false
    watchers := []
    nextConnId := 0
    dialCount := 0
    streamCloses := (0 : Multiset Nat) }

/-- Function `sshdb.New(clientConfig, remoteHostPort)`: validates the ssh client
configuration (opaque here) and the remote address, performing no network
activity; on success returns the freshly initialised tunnel. -/
def New (clientConfig : Option Unit) (remoteHostPort : String) : Except String Tunnel :=
  match clientConfig with
  | none => .error "clientConfig may not be nil"
  | some _ =>
    if trimSpaces remoteHostPort = "" then .error "remoteAddr may not be empty"
    else
      match splitHostPort remoteHostPort with
      | .error e => .error ("invalid address - " ++ e)
      | .ok _ => .ok initTunnel

/-- Method `(*Tunnel).reset`: no-op when the reset channel is already closed;
otherwise closes the channel, closes every tracked connection's stream,
empties the tracked set, and closes the client if present, returning the
client's close error.  `clientCloseErr` is the error that closing the ssh
client would report. -/
def Tunnel.reset (clientCloseErr : Option String) (s : Tunnel) :
    Option String × Tunnel :=
  if s.resetClosed then (none, s)
  else
    let s' : Tunnel :=
      { s with resetClosed := true
               streamCloses := s.streamCloses + s.sshconns.val
               sshconns := (∅ : Finset Nat)
               clientOpen := false }
    match s.client with
    | none => (none, s')
    | some _ => (clientCloseErr, s')

/-- Method `(*Tunnel).Close`: takes the lock and calls `reset`. -/
def Tunnel.close (clientCloseErr : Option String) (s : Tunnel) :
    Option String × Tunnel :=
  Tunnel.reset clientCloseErr s

/-- The caller's context, observed at the two checkpoints inside
`DialContext`: `d1` is whether it is done at entry, `d2` whether it is done
at the post-handshake check, `err` its error text. -/
structure DialCtx where
  d1 : Bool
  d2 : Bool
  err : String

/-- Outcomes of the external calls `DialContext` can make: `hs` the
`ssh.Dial` handshake result, `chanOpen` the `client.Dial` channel-open
result, and `pick` the runtime's choice when both select cases are ready
(`true` picks the context case). -/
structure DialEnv where
  hs : Except String Unit
  chanOpen : Except String Unit
  pick : Bool

/-- Method `(*Tunnel).getNetConn`: opens one forwarded channel on the live client,
wraps it as a tracked connection and registers it. -/
def Tunnel.getNetConn (env : DialEnv) (s : Tunnel) : Except String Nat × Tunnel :=
  match env.chanOpen with
  | .error e => (.error e, s)
  | .ok _ =>
    (.ok s.nextConnId,
      { s with sshconns := insert s.nextConnId s.sshconns
               nextConnId := s.nextConnId + 1 })

/-- Method `(*Tunnel).DialContext`: under the lock, a select over the done context
and the (possibly closed) reset channel decides between failing with the
context's error, establishing a fresh ssh client (storing it, installing a
fresh reset channel and spawning one watcher for the new epoch), or
proceeding straight to the channel open. -/
def Tunnel.dialContext (ctx : DialCtx) (env : DialEnv) (s : Tunnel) :
    Except String Nat × Tunnel :=
  if ctx.d1 && (!s.resetClosed || env.pick) then (.error ctx.err, s)
  else if s.resetClosed then
    match env.hs with
    | .error e => (.error e, { s with dialCount := s.dialCount + 1 })
    | .ok _ =>
      if ctx.d2 then (.error ctx.err, { s with dialCount := s.dialCount + 1 })
      else
        Tunnel.getNetConn env
          { s with dialCount := s.dialCount + 1
                   client := some (s.epoch + 1)
                   clientOpen := true
                   epoch := s.epoch + 1
                   resetClosed := false
                   watchers := s.watchers ++ [s.epoch + 1] }
  else Tunnel.getNetConn env s

/-- Method `(*Tunnel).ConnCount`: size of the tracked-connection set. -/
def Tunnel.connCount (s : Tunnel) : Nat :=
  s.sshconns.card

/-- Method `(*sshConn).Close`: if other tracked connections remain, remove this one
and close its stream (returning the stream's close error `streamErr`);
otherwise perform a full tunnel reset. -/
def sshConnClose (streamErr clientCloseErr : Option String) (sc : Nat)
    (s : Tunnel) : Option String × Tunnel :=
  if 1 < s.sshconns.card then
    (streamErr,
      { s with sshconns := s.sshconns.erase sc
               streamCloses := s.streamCloses + {sc} })
  else Tunnel.reset clientCloseErr s

/-- Whether the reset channel captured by the watcher of epoch `w` is
closed: channels of past epochs were closed by the reset that ended them,
and the current epoch's channel is closed exactly when the state says so. -/
def watcherChanClosed (s : Tunnel) (w : Nat) : Bool :=
  decide (w < s.epoch) || (decide (w = s.epoch) && s.resetClosed)

/-- Body of the watcher goroutine spawned by `DialContext` once its
`cl.Wait()` has returned: if its captured reset channel is already closed it
returns, otherwise it calls `tun.Close()` (discarding the error). -/
def watcherFire (clientCloseErr : Option String) (w : Nat) (s : Tunnel) :
    Tunnel :=
  if watcherChanClosed s w then { s with watchers := s.watchers.erase w }
  else { (Tunnel.close clientCloseErr s).2 with watchers := s.watchers.erase w }

/-- Lookup in the connector cache (first match, like a Go map with unique
keys). -/
def cacheLookup (cache : List (String × DbConnector)) (key : String) :
    Option DbConnector :=
  match cache with
  | [] => none
  | (k, c) :: rest => if k = key then some c else cacheLookup rest key

/-- Method `(*Tunnel).OpenConnector`: under the cache lock, look the connector up
by `Name() + ":" + dsn`; on a miss invoke the backend and cache a successful
result.  The third component records whether the backend was invoked. -/
def Tunnel.openConnector (tunnelDriver : Driver) (dataSourceName : String)
    (s : Tunnel) : Except String DbConnector × Tunnel × Bool :=
  let connectorName := tunnelDriver.name ++ ":" ++ dataSourceName
  match cacheLookup s.connectors connectorName with
  | some c => (.ok c, s, false)
  | none =>
    match tunnelDriver.impl dataSourceName with
    | .error e => (.error e, s, true)
    | .ok dbc =>
      (.ok dbc,
        { s with connectors := s.connectors ++ [(connectorName, dbc)] },
        true)

/-- Modelled from the spec: the Cached Connector of section 4.3, missing
from the current source, wraps a backend connector so that reporting its
owning driver returns the Tunnel itself. -/
def specCachedConnector (c : DbConnector) : DbConnector :=
  { c with drv := DriverRef.tunnelSelf }

/-- Method `(*Tunnel).IgnoreSetDeadlineRequest`. -/
def Tunnel.setIgnoreSetDeadlineRequest (val : Bool) (s : Tunnel) : Tunnel :=
  { s with ignoreSetDeadlineRequest := val }

/-- The fixed error the ssh forwarded-channel connection reports for any
deadline request. -/
def chanDeadlineErr : String := "ssh: tcpChan: deadline not supported"

/-- Modelled from `golang.org/x/crypto/ssh`: `chanConn.SetReadDeadline`
always fails with the fixed error. -/
def chanConnSetReadDeadline (_tm : Nat) : Option String :=
  some chanDeadlineErr

/-- Modelled from `golang.org/x/crypto/ssh`: `chanConn.SetWriteDeadline`
always fails with the fixed error. -/
def chanConnSetWriteDeadline (_tm : Nat) : Option String :=
  some chanDeadlineErr

/-- Modelled from `golang.org/x/crypto/ssh`: `chanConn.SetDeadline` sets the
read deadline, then the write deadline, returning the first error. -/
def chanConnSetDeadline (tm : Nat) : Option String :=
  match chanConnSetReadDeadline tm with
  | some e => some e
  | none => chanConnSetWriteDeadline tm

/-- Method `(*Tunnel).handleDeadline`: forwards to the underlying setter unless the
suppression flag is set.  The boolean records whether the underlying setter
was invoked. -/
def Tunnel.handleDeadline (s : Tunnel) (tm : Nat)
    (setter : Nat → Option String) : Option String × Bool :=
  if !s.ignoreSetDeadlineRequest then (setter tm, true) else (none, false)

/-- Method `(*sshConn).SetDeadline`. -/
def sshConnSetDeadline (s : Tunnel) (tm : Nat) : Option String × Bool :=
  Tunnel.handleDeadline s tm chanConnSetDeadline

/-- Method `(*sshConn).SetReadDeadline`. -/
def sshConnSetReadDeadline (s : Tunnel) (tm : Nat) : Option String × Bool :=
  Tunnel.handleDeadline s tm chanConnSetReadDeadline

/-- Method `(*sshConn).SetWriteDeadline`. -/
def sshConnSetWriteDeadline (s : Tunnel) (tm : Nat) : Option String × Bool :=
  Tunnel.handleDeadline s tm chanConnSetWriteDeadline

/-- States reachable from a fresh tunnel by the operations of the package:
dials, tracked-connection closes, explicit closes, watcher firings,
connector openings and deadline-flag updates. -/
inductive Reachable : Tunnel → Prop where
  | init : Reachable initTunnel
  | dial (ctx : DialCtx) (env : DialEnv) {s : Tunnel} :
      Reachable s → Reachable (Tunnel.dialContext ctx env s).2
  | connClose (se ce : Option String) (c : Nat) {s : Tunnel} :
      Reachable s → Reachable (sshConnClose se ce c s).2
  | closeStep (ce : Option String) {s : Tunnel} :
      Reachable s → Reachable (Tunnel.close ce s).2
  | watcher (ce : Option String) (w : Nat) {s : Tunnel} :
      Reachable s → Reachable (watcherFire ce w s)
  | openConn (d : Driver) (dsn : String) {s : Tunnel} :
      Reachable s → Reachable (Tunnel.openConnector d dsn s).2.1
  | setFlag (b : Bool) {s : Tunnel} :
      Reachable s → Reachable (Tunnel.setIgnoreSetDeadlineRequest b s)

/-- The structural facts every reachable state satisfies: an open reset
channel means the stored client has not been closed by a reset; a closed
reset channel means the tracked set is empty and the client was closed; and
pending watchers are pairwise distinct with epochs between 1 and the current
one. -/
structure goodState (s : Tunnel) : Prop where
  openClient : s.resetClosed = false → s.clientOpen = true
  closedEmpty : s.resetClosed = true →
    s.sshconns = (∅ : Finset Nat) ∧ s.clientOpen = false
  watchersNodup : s.watchers.Nodup
  watchersBound : ∀ w ∈ s.watchers, 1 ≤ w ∧ w ≤ s.epoch

/-- A connected state obtained from a fresh tunnel by one successful dial:
epoch 1, client stored and open, one tracked connection with id 0. -/
def sDial : Tunnel :=
  (Tunnel.dialContext ⟨false, false, "ctx"⟩ ⟨.ok (), .ok (), false⟩ initTunnel).2

/-- The state after explicitly closing `sDial`: reset channel closed,
tracked set empty, but the client field still holds the old handle. -/
def sClosed : Tunnel :=
  (Tunnel.close none sDial).2

/-- A connected state tracking the single connection with id 5, used to
exercise `sshConn.Close` on a non-member receiver. -/
def sOne : Tunnel :=
  { initTunnel with
      resetClosed := false
      clientOpen := true
      client := some 1
      epoch := 1
      sshconns := ({5} : Finset Nat)
      nextConnId := 6 }

/-- A backend double that rejects every connection string. -/
def failingDriver : Driver :=
  { name := "baddrv"
    impl := fun _ => .error "invalid dsn: parse failure" }

/-- A backend double producing a connector that reports its own native
driver. -/
def nativeDriver : Driver :=
  { name := "mysql"
    impl := fun dsn => .ok { payload := dsn, drv := DriverRef.native "mysql-native" } }

instance {α β : Type} [DecidableEq α] [DecidableEq β] : DecidableEq (Except α β) :=
  fun a b =>
    match a, b with
    | .ok x, .ok y =>
      if h : x = y then .isTrue (by rw [h]) else .isFalse (by simp [h])
    | .error x, .error y =>
      if h : x = y then .isTrue (by rw [h]) else .isFalse (by simp [h])
    | .ok _, .error _ => .isFalse (by simp)
    | .error _, .ok _ => .isFalse (by simp)

theorem good_init : goodState initTunnel := by
  refine ⟨?_, ?_, ?_, ?_⟩ <;> simp [initTunnel]

theorem reset_snd_of_closed (ce : Option String) {s : Tunnel}
    (h : s.resetClosed = true) : Tunnel.reset ce s = (none, s) := by
  simp [Tunnel.reset, h]

theorem reset_snd_of_open (ce : Option String) {s : Tunnel}
    (h : s.resetClosed = false) :
    (Tunnel.reset ce s).2 =
      { s with resetClosed := true
               streamCloses := s.streamCloses + s.sshconns.val
               sshconns := (∅ : Finset Nat)
               clientOpen := false } := by
  simp only [Tunnel.reset, h, Bool.false_eq_true, if_false]
  cases s.client <;> rfl

theorem good_reset (ce : Option String) {s : Tunnel} (h : goodState s) :
    goodState (Tunnel.reset ce s).2 := by
  obtain ⟨h1, h2, h3, h4⟩ := h
  by_cases hrc : s.resetClosed = true
  · have heq : (Tunnel.reset ce s).2 = s := by
      rw [reset_snd_of_closed ce hrc]
    rw [heq]
    exact ⟨h1, h2, h3, h4⟩
  · rw [reset_snd_of_open ce (by simpa using hrc)]
    refine ⟨?_, ?_, ?_, ?_⟩ <;> dsimp only
    · intro hx; cases hx
    · exact fun _ => ⟨rfl, rfl⟩
    · exact h3
    · exact h4

theorem getNetConn_fields (env : DialEnv) (s : Tunnel) :
    (Tunnel.getNetConn env s).2.resetClosed = s.resetClosed
    ∧ (Tunnel.getNetConn env s).2.clientOpen = s.clientOpen
    ∧ (Tunnel.getNetConn env s).2.client = s.client
    ∧ (Tunnel.getNetConn env s).2.epoch = s.epoch
    ∧ (Tunnel.getNetConn env s).2.watchers = s.watchers
    ∧ (Tunnel.getNetConn env s).2.connectors = s.connectors
    ∧ (Tunnel.getNetConn env s).2.dialCount = s.dialCount
    ∧ (Tunnel.getNetConn env s).2.streamCloses = s.streamCloses
    ∧ (Tunnel.getNetConn env s).2.ignoreSetDeadlineRequest
        = s.ignoreSetDeadlineRequest := by
  cases h : env.chanOpen <;> simp [Tunnel.getNetConn, h]

theorem good_getNetConn (env : DialEnv) {s : Tunnel}
    (hrc : s.resetClosed = false) (hco : s.clientOpen = true)
    (h3 : s.watchers.Nodup) (h4 : ∀ w ∈ s.watchers, 1 ≤ w ∧ w ≤ s.epoch) :
    goodState (Tunnel.getNetConn env s).2 := by
  obtain ⟨f1, f2, _, f4, f5, _⟩ := getNetConn_fields env s
  refine ⟨fun _ => f2.trans hco, fun hc => ?_, f5 ▸ h3, fun w hw => ?_⟩
  · rw [f1, hrc] at hc; cases hc
  · rw [f5] at hw; exact f4 ▸ h4 w hw

theorem good_dial (ctx : DialCtx) (env : DialEnv) {s : Tunnel}
    (h : goodState s) : goodState (Tunnel.dialContext ctx env s).2 := by
  obtain ⟨h1, h2, h3, h4⟩ := h
  unfold Tunnel.dialContext
  split
  · exact ⟨h1, h2, h3, h4⟩
  · split
    · split
      · exact ⟨h1, h2, h3, h4⟩
      · split
        · exact ⟨h1, h2, h3, h4⟩
        · refine good_getNetConn env rfl rfl ?_ ?_ <;> dsimp only
          · refine List.Nodup.append h3 (List.nodup_singleton _) ?_
            intro a ha hb
            simp only [List.mem_singleton] at hb
            have := (h4 a ha).2
            omega
          · intro w hw
            rcases List.mem_append.mp hw with hw | hw
            · rcases h4 w hw with ⟨hb1, hb2⟩
              exact ⟨hb1, by omega⟩
            · simp only [List.mem_singleton] at hw
              omega
    · next hrc =>
      have hrc' : s.resetClosed = false := by
        simpa using hrc
      exact good_getNetConn env hrc' (h1 hrc') h3 h4

theorem good_connClose (se ce : Option String) (c : Nat) {s : Tunnel}
    (h : goodState s) : goodState (sshConnClose se ce c s).2 := by
  obtain ⟨h1, h2, h3, h4⟩ := h
  unfold sshConnClose
  by_cases hcard : 1 < s.sshconns.card
  · simp only [hcard, if_true]
    refine ⟨h1, fun hc => ?_, h3, h4⟩
    rcases h2 hc with ⟨he, _⟩
    rw [he] at hcard; simp at hcard
  · simp only [hcard, if_false]
    exact good_reset ce ⟨h1, h2, h3, h4⟩

theorem good_close (ce : Option String) {s : Tunnel} (h : goodState s) :
    goodState (Tunnel.close ce s).2 :=
  good_reset ce h

theorem good_watcher (ce : Option String) (w : Nat) {s : Tunnel}
    (h : goodState s) : goodState (watcherFire ce w s) := by
  obtain ⟨h1, h2, h3, h4⟩ := h
  unfold watcherFire
  by_cases hcl : watcherChanClosed s w = true
  · simp only [hcl, if_true]
    exact ⟨h1, fun hc => h2 hc, h3.erase w,
      fun x hx => h4 x (List.mem_of_mem_erase hx)⟩
  · simp only [hcl, if_false]
    obtain ⟨g1, g2, g3, g4⟩ := good_close ce ⟨h1, h2, h3, h4⟩
    exact ⟨g1, g2, h3.erase w, fun x hx => by
      have hx' := List.mem_of_mem_erase hx
      have : (Tunnel.close ce s).2.epoch = s.epoch := by
        unfold Tunnel.close Tunnel.reset
        by_cases hrc : s.resetClosed = true
        · simp [hrc]
        · simp only [hrc, Bool.false_eq_true, if_false]
          cases s.client <;> rfl
      exact this ▸ h4 x hx'⟩

theorem good_openConn (d : Driver) (dsn : String) {s : Tunnel}
    (h : goodState s) : goodState (Tunnel.openConnector d dsn s).2.1 := by
  obtain ⟨h1, h2, h3, h4⟩ := h
  unfold Tunnel.openConnector
  dsimp only
  split
  · exact ⟨h1, h2, h3, h4⟩
  · split
    · exact ⟨h1, h2, h3, h4⟩
    · exact ⟨h1, h2, h3, h4⟩

theorem good_setFlag (b : Bool) {s : Tunnel} (h : goodState s) :
    goodState (Tunnel.setIgnoreSetDeadlineRequest b s) := by
  obtain ⟨h1, h2, h3, h4⟩ := h
  exact ⟨h1, h2, h3, h4⟩

theorem reachable_good {s : Tunnel} (h : Reachable s) : goodState s := by
  induction h with
  | init => exact good_init
  | dial ctx env _ ih => exact good_dial ctx env ih
  | connClose se ce c _ ih => exact good_connClose se ce c ih
  | closeStep ce _ ih => exact good_close ce ih
  | watcher ce w _ ih => exact good_watcher ce w ih
  | openConn d dsn _ ih => exact good_openConn d dsn ih
  | setFlag b _ ih => exact good_setFlag b ih

theorem sDial_reachable : Reachable sDial :=
  Reachable.dial _ _ Reachable.init

theorem sClosed_reachable : Reachable sClosed :=
  Reachable.closeStep none sDial_reachable

theorem reset_closed_after (ce : Option String) (s : Tunnel) :
    (Tunnel.reset ce s).2.resetClosed = true := by
  by_cases h : s.resetClosed = true
  · have heq : (Tunnel.reset ce s).2 = s := by
      rw [reset_snd_of_closed ce h]
    rw [heq]
    exact h
  · rw [reset_snd_of_open ce (by simpa using h)]

theorem dial_handshake_when_closed (ctx : DialCtx) (env : DialEnv)
    {s : Tunnel} (hd1 : ctx.d1 = false) (hrc : s.resetClosed = true) :
    (Tunnel.dialContext ctx env s).2.dialCount = s.dialCount + 1 := by
  unfold Tunnel.dialContext
  simp only [hd1, Bool.false_and, Bool.false_eq_true, if_false, hrc, if_true]
  cases hhs : env.hs with
  | error e => rfl
  | ok u =>
    by_cases hd2 : ctx.d2 = true
    · simp only [hd2, if_true]
    · simp only [hd2, if_false]
      obtain ⟨_, _, _, _, _, _, f7, _⟩ := getNetConn_fields env
        { s with dialCount := s.dialCount + 1
                 client := some (s.epoch + 1)
                 clientOpen := true
                 epoch := s.epoch + 1
                 resetClosed := false
                 watchers := s.watchers ++ [s.epoch + 1] }
      exact f7

theorem cacheLookup_append_some {l : List (String × DbConnector)}
    {k : String} {c : DbConnector} (h : cacheLookup l k = some c)
    (l2 : List (String × DbConnector)) :
    cacheLookup (l ++ l2) k = some c := by
  induction l with
  | nil => simp [cacheLookup] at h
  | cons a rest ih =>
    obtain ⟨ka, ca⟩ := a
    by_cases hk : ka = k
    · simp only [cacheLookup, hk, if_true] at h
      simp only [List.cons_append, cacheLookup, hk, if_true]
      exact h
    · simp only [cacheLookup, hk, if_false] at h
      simp only [List.cons_append, cacheLookup, hk, if_false]
      exact ih h

theorem cacheLookup_append_self {l : List (String × DbConnector)}
    {k : String} (c : DbConnector) (h : cacheLookup l k = none) :
    cacheLookup (l ++ [(k, c)]) k = some c := by
  induction l with
  | nil => simp [cacheLookup]
  | cons a rest ih =>
    obtain ⟨ka, ca⟩ := a
    by_cases hk : ka = k
    · simp only [cacheLookup, hk, if_true] at h
      cases h
    · simp only [cacheLookup, hk, if_false] at h
      simp only [List.cons_append, cacheLookup, hk, if_false]
      exact ih h

/-- C9: for every tracked connection, when the tunnel's deadline-suppression
flag is unset, each of SetDeadline, SetReadDeadline and SetWriteDeadline
returns the fixed "deadline not supported" error of the forwarded channel;
when the flag is set, each returns success without invoking the underlying
stream's setter. -/
theorem c9_deadline (s : Tunnel) (tm : Nat) :
    (s.ignoreSetDeadlineRequest = false →
      sshConnSetDeadline s tm = (some chanDeadlineErr, true)
      ∧ sshConnSetReadDeadline s tm = (some chanDeadlineErr, true)
      ∧ sshConnSetWriteDeadline s tm = (some chanDeadlineErr, true))
    ∧ (s.ignoreSetDeadlineRequest = true →
      sshConnSetDeadline s tm = (none, false)
      ∧ sshConnSetReadDeadline s tm = (none, false)
      ∧ sshConnSetWriteDeadline s tm = (none, false)) := by
  constructor <;> intro hf <;>
    simp [sshConnSetDeadline, sshConnSetReadDeadline, sshConnSetWriteDeadline,
      Tunnel.handleDeadline, hf, chanConnSetDeadline, chanConnSetReadDeadline,
      chanConnSetWriteDeadline]

/-- Witness for C9: the fresh tunnel has the flag unset and its deadline
calls return the fixed error; after setting the flag they succeed without
touching the stream. -/
theorem c9_deadline_witness :
    initTunnel.ignoreSetDeadlineRequest = false
    ∧ sshConnSetDeadline initTunnel 0 = (some chanDeadlineErr, true)
    ∧ (Tunnel.setIgnoreSetDeadlineRequest true initTunnel).ignoreSetDeadlineRequest
        = true
    ∧ sshConnSetDeadline (Tunnel.setIgnoreSetDeadlineRequest true initTunnel) 0
        = (none, false) :=
  ⟨rfl, ((c9_deadline initTunnel 0).1 rfl).1, rfl,
    ((c9_deadline (Tunnel.setIgnoreSetDeadlineRequest true initTunnel) 0).2 rfl).1⟩

/-- C10: a tracked connection's Close depends only on the current size of
the tunnel's tracked set, never on membership of the receiver: with at most
one element the call performs a full tunnel reset (even when that one
element is a different connection, which the reset then tears down), and
with two or more elements it removes the receiver (a no-op when absent) and
closes the receiver's underlying stream again. -/
theorem c10_close_by_size (se ce : Option String) (c : Nat) (s : Tunnel) :
    (s.sshconns.card ≤ 1 → sshConnClose se ce c s = Tunnel.reset ce s)
    ∧ (2 ≤ s.sshconns.card →
        sshConnClose se ce c s =
          (se, { s with sshconns := s.sshconns.erase c
                        streamCloses := s.streamCloses + {c} })) := by
  constructor
  · intro hcard
    have hn : ¬ 1 < s.sshconns.card := by omega
    simp [sshConnClose, hn]
  · intro hcard
    have hy : 1 < s.sshconns.card := by omega
    simp [sshConnClose, hy]

/-- Witness for C10: closing the non-member connection 7 while only
connection 5 is tracked performs the full reset, closing 5's stream. -/
theorem c10_close_by_size_witness :
    sOne.sshconns.card ≤ 1
    ∧ sshConnClose none none 7 sOne = Tunnel.reset none sOne
    ∧ (sshConnClose none none 7 sOne).2.streamCloses = ({5} : Multiset Nat)
    ∧ (sshConnClose none none 7 sOne).2.resetClosed = true :=
  ⟨by decide, (c10_close_by_size none none 7 sOne).1 (by decide),
    by decide, by decide⟩

/-- C7: reset is idempotent — with the signal already closed it returns at
once with no error and no state change, so a second Close never errors and
leaves ConnCount at 0 — and when a reset does close a live session, the
session's close error goes back to the caller while every other effect of
the transition (signal closed, tracked set emptied, session closed) happens
regardless of that error. -/
theorem c7_reset_idempotent :
    (∀ (ce : Option String) (s : Tunnel), s.resetClosed = true →
        Tunnel.close ce s = (none, s))
    ∧ (∀ (ce1 ce2 : Option String) (s : Tunnel),
        Tunnel.close ce2 (Tunnel.close ce1 s).2 = (none, (Tunnel.close ce1 s).2))
    ∧ (∀ (ce : Option String) (s : Tunnel), Reachable s →
        Tunnel.connCount (Tunnel.close ce s).2 = 0)
    ∧ (∀ (ce : Option String) (s : Tunnel),
        (Tunnel.close ce s).2 = (Tunnel.close none s).2)
    ∧ (∀ (ce : Option String) (s : Tunnel) (cl : Nat),
        s.resetClosed = false → s.client = some cl → (Tunnel.close ce s).1 = ce)
    ∧ (∀ (ce : Option String) (s : Tunnel), s.resetClosed = false →
        (Tunnel.close ce s).2.resetClosed = true
        ∧ (Tunnel.close ce s).2.sshconns = (∅ : Finset Nat)
        ∧ (Tunnel.close ce s).2.clientOpen = false) := by
  refine ⟨?_, ?_, ?_, ?_, ?_, ?_⟩
  · intro ce s h
    exact reset_snd_of_closed ce h
  · intro ce1 ce2 s
    exact reset_snd_of_closed ce2 (reset_closed_after ce1 s)
  · intro ce s hs
    by_cases h : s.resetClosed = true
    · have heq : (Tunnel.close ce s).2 = s := by
        have := reset_snd_of_closed ce h
        rw [Tunnel.close, this]
      rw [heq]
      rcases (reachable_good hs).closedEmpty h with ⟨he, _⟩
      simp [Tunnel.connCount, he]
    · have heq := reset_snd_of_open ce (by simpa using h)
      rw [Tunnel.close, heq]
      simp [Tunnel.connCount]
  · intro ce s
    by_cases h : s.resetClosed = true
    · have h1 := reset_snd_of_closed ce h
      have h2 := reset_snd_of_closed (none : Option String) h
      rw [Tunnel.close, Tunnel.close, h1, h2]
    · have h1 := reset_snd_of_open ce (by simpa using h)
      have h2 := reset_snd_of_open (none : Option String) (by simpa using h)
      rw [Tunnel.close, Tunnel.close, h1, h2]
  · intro ce s cl h hcl
    simp [Tunnel.close, Tunnel.reset, h, hcl]
  · intro ce s h
    have heq := reset_snd_of_open ce (by simpa using h)
    rw [Tunnel.close, heq]
    exact ⟨rfl, rfl, rfl⟩

/-- Witness for C7: closing the already-closed `sClosed` state is an
errorless no-op; closing a fresh tunnel leaves ConnCount at 0; closing the
live `sDial` state reports the session's close error. -/
theorem c7_reset_idempotent_witness :
    sClosed.resetClosed = true
    ∧ Tunnel.close none sClosed = (none, sClosed)
    ∧ Tunnel.connCount (Tunnel.close none initTunnel).2 = 0
    ∧ sDial.resetClosed = false
    ∧ sDial.client = some 1
    ∧ (Tunnel.close (some "close failed") sDial).1 = some "close failed" :=
  ⟨by decide,
    c7_reset_idempotent.1 none sClosed (by decide),
    c7_reset_idempotent.2.2.1 none initTunnel Reachable.init,
    by decide, by decide,
    c7_reset_idempotent.2.2.2.2.1 (some "close failed") sDial 1 (by decide)
      (by decide)⟩

/-- C4 counterexample: `reset` never clears the `client` field, so after a
successful dial followed by an explicit Close the reachable state `sClosed`
has a closed reset signal and an empty tracked set while the session handle
is still present — refuting "closed iff the session handle is absent and the
tracked set is empty" as stated. -/
theorem c4_counterexample :
    Reachable sClosed
    ∧ sClosed.resetClosed = true
    ∧ sClosed.sshconns = (∅ : Finset Nat)
    ∧ sClosed.client = some 1
    ∧ ¬(sClosed.resetClosed = true ↔
        (sClosed.client = none ∧ sClosed.sshconns = (∅ : Finset Nat))) :=
  ⟨sClosed_reachable, by decide, by decide, by decide, by decide⟩

/-- C4 amended: in every reachable state the reset signal is closed iff the
tracked-connection set is empty and no live session remains, where "no live
session" means the stored client (if any) has been closed — the handle field
itself is never cleared by `reset`. -/
theorem c4_amended (s : Tunnel) (h : Reachable s) :
    s.resetClosed = true ↔
      (s.sshconns = (∅ : Finset Nat) ∧ s.clientOpen = false) := by
  obtain ⟨h1, h2, _, _⟩ := reachable_good h
  constructor
  · exact h2
  · rintro ⟨_, hco⟩
    by_cases hrc : s.resetClosed = true
    · exact hrc
    · rw [h1 (by simpa using hrc)] at hco
      cases hco

/-- Witness for C4 at the fresh tunnel state. -/
theorem c4_amended_witness :
    initTunnel.resetClosed = true ↔
      (initTunnel.sshconns = (∅ : Finset Nat)
        ∧ initTunnel.clientOpen = false) :=
  c4_amended initTunnel Reachable.init

/-- C6: for a tracked connection `c` that is a member of the set — if at
least one other tracked connection remains, Close removes exactly `c` and
closes only `c`'s stream, leaving the session, the other connections and all
other tunnel state untouched; if `c` is the last member, Close instead
performs a full tunnel reset, so draining to zero leaves ConnCount at 0 and
the next DialContext performs a fresh handshake. -/
theorem c6_tracked_close (se ce : Option String) (c : Nat) (s : Tunnel)
    (hs : Reachable s) (hc : c ∈ s.sshconns) :
    ((∃ c2 ∈ s.sshconns, c2 ≠ c) →
      sshConnClose se ce c s =
        (se, { s with sshconns := s.sshconns.erase c
                      streamCloses := s.streamCloses + {c} }))
    ∧ (s.sshconns = {c} →
        sshConnClose se ce c s = Tunnel.reset ce s
        ∧ (sshConnClose se ce c s).2.resetClosed = true
        ∧ (sshConnClose se ce c s).2.sshconns = (∅ : Finset Nat)
        ∧ (sshConnClose se ce c s).2.clientOpen = false
        ∧ Tunnel.connCount (sshConnClose se ce c s).2 = 0
        ∧ (∀ (ctx : DialCtx) (env : DialEnv), ctx.d1 = false →
            (Tunnel.dialContext ctx env (sshConnClose se ce c s).2).2.dialCount
              = (sshConnClose se ce c s).2.dialCount + 1)) := by
  constructor
  · rintro ⟨c2, hc2, hne⟩
    have hcard : 1 < s.sshconns.card :=
      Finset.one_lt_card.mpr ⟨c2, hc2, c, hc, hne⟩
    simp [sshConnClose, hcard]
  · intro hone
    have hcard : ¬ 1 < s.sshconns.card := by
      rw [hone, Finset.card_singleton]
      omega
    have heq : sshConnClose se ce c s = Tunnel.reset ce s := by
      simp [sshConnClose, hcard]
    have hrc : s.resetClosed = false := by
      by_cases h : s.resetClosed = true
      · rcases (reachable_good hs).closedEmpty h with ⟨he, _⟩
        rw [he] at hone
        exact absurd hone.symm (Finset.singleton_ne_empty c)
      · simpa using h
    have hsnd := reset_snd_of_open ce hrc
    rw [heq, hsnd]
    refine ⟨rfl, rfl, rfl, rfl, by simp [Tunnel.connCount], ?_⟩
    intro ctx env hd1
    exact dial_handshake_when_closed ctx env hd1 rfl

/-- Witness for C6: in the reachable one-connection state `sDial`, closing
the single tracked connection 0 resets the tunnel and leaves ConnCount 0. -/
theorem c6_tracked_close_witness :
    (0 ∈ sDial.sshconns)
    ∧ sDial.sshconns = ({0} : Finset Nat)
    ∧ (sshConnClose none none 0 sDial).2.resetClosed = true
    ∧ Tunnel.connCount (sshConnClose none none 0 sDial).2 = 0 := by
  refine ⟨by decide, by decide, ?_, ?_⟩
  · exact ((c6_tracked_close none none 0 sDial sDial_reachable
      (by decide)).2 (by decide)).2.1
  · exact ((c6_tracked_close none none 0 sDial sDial_reachable
      (by decide)).2 (by decide)).2.2.2.2.1

/-- C5 counterexample: with the tunnel in the reset state and the context
already done, both select cases are ready and the runtime may pick the
reconnect case, so a handshake is performed (the dial counter reaches 1) and
a handshake failure is returned in place of the context's error — refuting
"returns that context's error immediately ... no SSH handshake is
performed". -/
theorem c5_counterexample :
    (Tunnel.dialContext ⟨true, true, "context canceled"⟩
        ⟨.ok (), .ok (), false⟩ initTunnel).2.dialCount = 1
    ∧ initTunnel.dialCount = 0
    ∧ (Tunnel.dialContext ⟨true, true, "context canceled"⟩
        ⟨.error "dial tcp 127.0.0.1:22: connection refused", .ok (), false⟩
        initTunnel).1
      = .error "dial tcp 127.0.0.1:22: connection refused"
    ∧ ("dial tcp 127.0.0.1:22: connection refused" : String)
        ≠ "context canceled" :=
  ⟨by decide, by decide, by decide, by decide⟩

/-- C5 amended: DialContext with an already-done context always returns an
error and leaves every piece of tunnel state — tracked set (hence
ConnCount), client, reset signal, epoch, connector cache, watchers — exactly
unchanged; when the reset signal is open the result is precisely the
context's error with no handshake, but in the reset state the runtime may
take the reconnect select case, performing a handshake whose failure error
is returned instead (a successful handshake is immediately closed and the
context's error returned). -/
theorem c5_amended (ctx : DialCtx) (env : DialEnv) (s : Tunnel)
    (hd1 : ctx.d1 = true) (hd2 : ctx.d2 = true) :
    (∃ e, (Tunnel.dialContext ctx env s).1 = Except.error e)
    ∧ (Tunnel.dialContext ctx env s).2.sshconns = s.sshconns
    ∧ Tunnel.connCount (Tunnel.dialContext ctx env s).2 = Tunnel.connCount s
    ∧ (Tunnel.dialContext ctx env s).2.client = s.client
    ∧ (Tunnel.dialContext ctx env s).2.resetClosed = s.resetClosed
    ∧ (Tunnel.dialContext ctx env s).2.clientOpen = s.clientOpen
    ∧ (Tunnel.dialContext ctx env s).2.epoch = s.epoch
    ∧ (Tunnel.dialContext ctx env s).2.connectors = s.connectors
    ∧ (Tunnel.dialContext ctx env s).2.watchers = s.watchers
    ∧ (Tunnel.dialContext ctx env s).2.nextConnId = s.nextConnId
    ∧ (Tunnel.dialContext ctx env s).2.streamCloses = s.streamCloses
    ∧ (s.resetClosed = false →
        Tunnel.dialContext ctx env s = (Except.error ctx.err, s)) := by
  unfold Tunnel.dialContext
  by_cases hsel : (ctx.d1 && (!s.resetClosed || env.pick)) = true
  · rw [if_pos hsel]
    exact ⟨⟨ctx.err, rfl⟩, rfl, rfl, rfl, rfl, rfl, rfl, rfl, rfl, rfl, rfl,
      fun _ => rfl⟩
  · have hrc : s.resetClosed = true := by
      by_cases h : s.resetClosed = true
      · exact h
      · exfalso
        apply hsel
        have h' : s.resetClosed = false := by simpa using h
        rw [hd1, h']
        simp
    rw [if_neg hsel, if_pos hrc]
    cases hhs : env.hs with
    | error e =>
      exact ⟨⟨e, rfl⟩, rfl, rfl, rfl, rfl, rfl, rfl, rfl, rfl, rfl, rfl,
        fun hco => by rw [hco] at hrc; cases hrc⟩
    | ok u =>
      rw [if_pos hd2]
      exact ⟨⟨ctx.err, rfl⟩, rfl, rfl, rfl, rfl, rfl, rfl, rfl, rfl, rfl, rfl,
        fun hco => by rw [hco] at hrc; cases hrc⟩

/-- Witness for C5 at a concrete done context on the fresh tunnel. -/
theorem c5_amended_witness :
    (∃ e, (Tunnel.dialContext ⟨true, true, "context canceled"⟩
        ⟨.ok (), .ok (), true⟩ initTunnel).1 = Except.error e)
    ∧ Tunnel.connCount (Tunnel.dialContext ⟨true, true, "context canceled"⟩
        ⟨.ok (), .ok (), true⟩ initTunnel).2 = Tunnel.connCount initTunnel :=
  ⟨(c5_amended ⟨true, true, "context canceled"⟩ ⟨.ok (), .ok (), true⟩
      initTunnel rfl rfl).1,
    (c5_amended ⟨true, true, "context canceled"⟩ ⟨.ok (), .ok (), true⟩
      initTunnel rfl rfl).2.2.1⟩

theorem reset_connectors_eq (ce : Option String) (s : Tunnel) :
    (Tunnel.reset ce s).2.connectors = s.connectors := by
  by_cases h : s.resetClosed = true
  · have heq := reset_snd_of_closed ce h
    rw [heq]
  · rw [reset_snd_of_open ce (by simpa using h)]

theorem dial_connectors_eq (ctx : DialCtx) (env : DialEnv) (s : Tunnel) :
    (Tunnel.dialContext ctx env s).2.connectors = s.connectors := by
  unfold Tunnel.dialContext
  split
  · rfl
  · split
    · split
      · rfl
      · split
        · rfl
        · exact (getNetConn_fields env _).2.2.2.2.2.1
    · exact (getNetConn_fields env s).2.2.2.2.2.1

theorem sshConnClose_connectors_eq (se ce : Option String) (c : Nat)
    (s : Tunnel) : (sshConnClose se ce c s).2.connectors = s.connectors := by
  unfold sshConnClose
  split
  · rfl
  · exact reset_connectors_eq ce s

theorem watcherFire_connectors_eq (ce : Option String) (w : Nat)
    (s : Tunnel) : (watcherFire ce w s).connectors = s.connectors := by
  unfold watcherFire
  split
  · rfl
  · exact reset_connectors_eq ce s

/-- C3 counterexample: when the backend rejects the connection string,
nothing is cached, so a second OpenConnector call with the same string
invokes the backend again — two invocations for one string, and the second
call returns the error rather than a cached connector — refuting "invoked at
most once per connection string" as stated. -/
theorem c3_counterexample :
    (Tunnel.openConnector failingDriver "dsn0" initTunnel).2.2 = true
    ∧ (Tunnel.openConnector failingDriver "dsn0"
        (Tunnel.openConnector failingDriver "dsn0" initTunnel).2.1).2.2 = true
    ∧ (Tunnel.openConnector failingDriver "dsn0"
        (Tunnel.openConnector failingDriver "dsn0" initTunnel).2.1).1
      = .error "invalid dsn: parse failure" :=
  ⟨by decide, by decide, by decide⟩

/-- C3 amended: once a call for a connection string succeeds, its connector
is cached under the `name:dsn` key and every later call with that driver
name and string returns the cached connector without invoking the backend;
cache entries are never evicted or overwritten by any operation.  A failed
backend call caches nothing, so the backend can be re-invoked for the same
string until it succeeds. -/
theorem c3_amended :
    (∀ (d : Driver) (dsn : String) (s : Tunnel) (c : DbConnector),
        cacheLookup s.connectors (d.name ++ ":" ++ dsn) = some c →
          Tunnel.openConnector d dsn s = (.ok c, s, false))
    ∧ (∀ (d : Driver) (dsn : String) (s : Tunnel) (c : DbConnector),
        (Tunnel.openConnector d dsn s).1 = .ok c →
          Tunnel.openConnector d dsn (Tunnel.openConnector d dsn s).2.1
            = (.ok c, (Tunnel.openConnector d dsn s).2.1, false))
    ∧ (∀ (d : Driver) (dsn : String) (s : Tunnel) (key : String)
          (c : DbConnector),
        cacheLookup s.connectors key = some c →
          cacheLookup (Tunnel.openConnector d dsn s).2.1.connectors key
            = some c)
    ∧ (∀ (ctx : DialCtx) (env : DialEnv) (s : Tunnel),
        (Tunnel.dialContext ctx env s).2.connectors = s.connectors)
    ∧ (∀ (ce : Option String) (s : Tunnel),
        (Tunnel.close ce s).2.connectors = s.connectors)
    ∧ (∀ (se ce : Option String) (c : Nat) (s : Tunnel),
        (sshConnClose se ce c s).2.connectors = s.connectors)
    ∧ (∀ (ce : Option String) (w : Nat) (s : Tunnel),
        (watcherFire ce w s).connectors = s.connectors) := by
  refine ⟨?_, ?_, ?_, dial_connectors_eq, fun ce s => reset_connectors_eq ce s,
    sshConnClose_connectors_eq, watcherFire_connectors_eq⟩
  · intro d dsn s c h
    simp [Tunnel.openConnector, h]
  · intro d dsn s c h
    cases hl : cacheLookup s.connectors (d.name ++ ":" ++ dsn) with
    | some c0 =>
      have heq : Tunnel.openConnector d dsn s = (.ok c0, s, false) := by
        simp [Tunnel.openConnector, hl]
      rw [heq] at h ⊢
      obtain rfl : c0 = c := by
        injection h
      simp [Tunnel.openConnector, hl]
    | none =>
      cases him : d.impl dsn with
      | error e =>
        have heq : Tunnel.openConnector d dsn s = (.error e, s, true) := by
          simp [Tunnel.openConnector, hl, him]
        rw [heq] at h
        cases h
      | ok dbc =>
        have heq : Tunnel.openConnector d dsn s =
            (.ok dbc,
              { s with connectors :=
                  s.connectors ++ [(d.name ++ ":" ++ dsn, dbc)] },
              true) := by
          simp [Tunnel.openConnector, hl, him]
        rw [heq] at h ⊢
        obtain rfl : dbc = c := by
          injection h
        have hl2 : cacheLookup
            ({ s with connectors :=
                s.connectors ++ [(d.name ++ ":" ++ dsn, dbc)] } :
              Tunnel).connectors (d.name ++ ":" ++ dsn) = some dbc :=
          cacheLookup_append_self dbc hl
        simp [Tunnel.openConnector, hl2]
  · intro d dsn s key c h
    cases hl : cacheLookup s.connectors (d.name ++ ":" ++ dsn) with
    | some c0 => simpa [Tunnel.openConnector, hl] using h
    | none =>
      cases him : d.impl dsn with
      | error e => simpa [Tunnel.openConnector, hl, him] using h
      | ok dbc =>
        have : (Tunnel.openConnector d dsn s).2.1.connectors
            = s.connectors ++ [(d.name ++ ":" ++ dsn, dbc)] := by
          simp [Tunnel.openConnector, hl, him]
        rw [this]
        exact cacheLookup_append_some h _

/-- Witness for C3: a successful first call through the test backend caches
its connector, and the identical second call returns it without invoking the
backend. -/
theorem c3_amended_witness :
    (Tunnel.openConnector nativeDriver "dsn0" initTunnel).1
      = .ok { payload := "dsn0", drv := DriverRef.native "mysql-native" }
    ∧ Tunnel.openConnector nativeDriver "dsn0"
        (Tunnel.openConnector nativeDriver "dsn0" initTunnel).2.1
      = (.ok { payload := "dsn0", drv := DriverRef.native "mysql-native" },
          (Tunnel.openConnector nativeDriver "dsn0" initTunnel).2.1, false) :=
  ⟨by decide,
    c3_amended.2.1 nativeDriver "dsn0" initTunnel
      { payload := "dsn0", drv := DriverRef.native "mysql-native" } (by decide)⟩

/-- C1 counterexample: OpenConnector hands back the backend-produced
connector itself — the current code has no wrapping connector — so the
returned connector reports the backend's native driver, not the Tunnel, and
differs from the spec-modelled Cached Connector wrapper. -/
theorem c1_counterexample :
    (Tunnel.openConnector nativeDriver "dsn0" initTunnel).1
      = .ok { payload := "dsn0", drv := DriverRef.native "mysql-native" }
    ∧ DriverRef.native "mysql-native" ≠ DriverRef.tunnelSelf
    ∧ specCachedConnector
        { payload := "dsn0", drv := DriverRef.native "mysql-native" }
      ≠ { payload := "dsn0", drv := DriverRef.native "mysql-native" } :=
  ⟨by decide, by decide, by decide⟩

/-- C1 amended: every connector returned by Tunnel.OpenConnector is the
backend-produced connector unchanged (no wrapper exists in the current
code), so invoking its Driver() method reports the backend connector's own
native driver rather than the Tunnel. -/
theorem c1_amended (d : Driver) (dsn : String) (s : Tunnel) (c : DbConnector)
    (hmiss : cacheLookup s.connectors (d.name ++ ":" ++ dsn) = none)
    (hok : d.impl dsn = .ok c) :
    (Tunnel.openConnector d dsn s).1 = .ok c
    ∧ (Tunnel.openConnector d dsn s).2.1.connectors
        = s.connectors ++ [(d.name ++ ":" ++ dsn, c)]
    ∧ (∀ cr, (Tunnel.openConnector d dsn s).1 = .ok cr → cr.drv = c.drv) := by
  have heq : Tunnel.openConnector d dsn s =
      (.ok c,
        { s with connectors := s.connectors ++ [(d.name ++ ":" ++ dsn, c)] },
        true) := by
    simp [Tunnel.openConnector, hmiss, hok]
  rw [heq]
  refine ⟨rfl, rfl, ?_⟩
  intro cr hcr
  obtain rfl : c = cr := by
    injection hcr
  rfl

/-- Witness for C1 at a concrete backend and string. -/
theorem c1_amended_witness :
    (Tunnel.openConnector nativeDriver "abc" initTunnel).1
      = .ok { payload := "abc", drv := DriverRef.native "mysql-native" } :=
  (c1_amended nativeDriver "abc" initTunnel
    { payload := "abc", drv := DriverRef.native "mysql-native" }
    (by decide) (by decide)).1

/-- C2 counterexample: `New` takes no backend at all — its two parameters
are the client configuration and the address — so with a nil configuration
and address "h:22" the construction error is "clientConfig may not be nil",
not "backend required". -/
theorem c2_counterexample :
    New none "h:22" = .error "clientConfig may not be nil"
    ∧ ("clientConfig may not be nil" : String) ≠ "backend required" :=
  ⟨by decide, by decide⟩

/-- C2 amended: `New(clientConfig, remoteHostPort)` fails fast, before any
network activity, when the configuration is nil ("clientConfig may not be
nil"), when the address trims to empty ("remoteAddr may not be empty"), or
when the address fails host:port splitting ("invalid address - ..."); on
every other input it succeeds without dialing, returning a tunnel whose
reset signal starts closed with empty connector cache, empty tracked set and
no client.  There is no backend parameter or backend check. -/
theorem c2_amended :
    (∀ a, New none a = .error "clientConfig may not be nil")
    ∧ (∀ (cfg : Unit) a, trimSpaces a = "" →
        New (some cfg) a = .error "remoteAddr may not be empty")
    ∧ (∀ (cfg : Unit) a e, trimSpaces a ≠ "" → splitHostPort a = .error e →
        New (some cfg) a = .error ("invalid address - " ++ e))
    ∧ (∀ (cfg : Unit) a hp, trimSpaces a ≠ "" → splitHostPort a = .ok hp →
        New (some cfg) a = .ok initTunnel)
    ∧ initTunnel.resetClosed = true
    ∧ initTunnel.connectors = []
    ∧ initTunnel.sshconns = (∅ : Finset Nat)
    ∧ initTunnel.client = none
    ∧ initTunnel.dialCount = 0 := by
  refine ⟨fun a => rfl, ?_, ?_, ?_, rfl, rfl, rfl, rfl, rfl⟩
  · intro cfg a h
    simp [New, h]
  · intro cfg a e hne hsp
    simp [New, hne, hsp]
  · intro cfg a hp hne hsp
    simp [New, hne, hsp]

/-- Witness for C2: "h:22" passes validation and yields the fresh tunnel,
while a blank address is rejected. -/
theorem c2_amended_witness :
    trimSpaces "h:22" ≠ ""
    ∧ splitHostPort "h:22" = .ok ("h", "22")
    ∧ New (some ()) "h:22" = .ok initTunnel
    ∧ trimSpaces " " = ""
    ∧ New (some ()) " " = .error "remoteAddr may not be empty" :=
  ⟨by decide, by decide,
    c2_amended.2.2.2.1 () "h:22" ("h", "22") (by decide) (by decide),
    by decide,
    c2_amended.2.1 () " " (by decide)⟩

/-- C8: each RESET-to-CONNECTED transition spawns exactly one watcher, tied
to the fresh epoch's reset signal (and reachable states never hold two
watchers for one epoch); a watcher whose captured signal is already closed
or superseded is a pure no-op, while the watcher of the still-active open
signal forces the full reset; once the signal is closed, every remaining
watcher firing leaves the state untouched, so a watcher never duplicates a
reset that an explicit Close already performed. -/
theorem c8_watcher :
    (∀ s, Reachable s →
        s.watchers.Nodup ∧ ∀ w ∈ s.watchers, 1 ≤ w ∧ w ≤ s.epoch)
    ∧ (∀ (ctx : DialCtx) (env : DialEnv) (s : Tunnel),
        ctx.d1 = false → ctx.d2 = false → env.hs = .ok () →
        s.resetClosed = true →
          (Tunnel.dialContext ctx env s).2.watchers
              = s.watchers ++ [s.epoch + 1]
          ∧ (Tunnel.dialContext ctx env s).2.epoch = s.epoch + 1)
    ∧ (∀ (ce : Option String) (w : Nat) (s : Tunnel),
        watcherChanClosed s w = true →
          watcherFire ce w s = { s with watchers := s.watchers.erase w })
    ∧ (∀ (ce : Option String) (w : Nat) (s : Tunnel),
        s.resetClosed = false → watcherChanClosed s w = false →
          (watcherFire ce w s).resetClosed = true
          ∧ (watcherFire ce w s).sshconns = (∅ : Finset Nat)
          ∧ (watcherFire ce w s).clientOpen = false)
    ∧ (∀ (ce : Option String) (w : Nat) (s : Tunnel),
        s.resetClosed = true →
          watcherFire ce w s = { s with watchers := s.watchers.erase w }) := by
  refine ⟨?_, ?_, ?_, ?_, ?_⟩
  · intro s hs
    exact ⟨(reachable_good hs).watchersNodup, (reachable_good hs).watchersBound⟩
  · intro ctx env s hd1 hd2 hhs hrc
    have hred : Tunnel.dialContext ctx env s =
        Tunnel.getNetConn env
          { s with dialCount := s.dialCount + 1
                   client := some (s.epoch + 1)
                   clientOpen := true
                   epoch := s.epoch + 1
                   resetClosed := false
                   watchers := s.watchers ++ [s.epoch + 1] } := by
      simp [Tunnel.dialContext, hd1, hd2, hhs, hrc]
    rw [hred]
    exact ⟨(getNetConn_fields env _).2.2.2.2.1, (getNetConn_fields env _).2.2.2.1⟩
  · intro ce w s hcl
    simp [watcherFire, hcl]
  · intro ce w s hrc hcl
    have hsnd := reset_snd_of_open ce hrc
    have hred : watcherFire ce w s =
        { (Tunnel.close ce s).2 with watchers := s.watchers.erase w } := by
      simp [watcherFire, hcl]
    rw [hred, Tunnel.close, hsnd]
    exact ⟨rfl, rfl, rfl⟩
  · intro ce w s hrc
    by_cases hcl : watcherChanClosed s w = true
    · simp [watcherFire, hcl]
    · have hcl' : watcherChanClosed s w = false := by simpa using hcl
      have hcls := reset_snd_of_closed ce hrc
      have hred : watcherFire ce w s =
          { (Tunnel.close ce s).2 with watchers := s.watchers.erase w } := by
        simp [watcherFire, hcl']
      rw [hred, Tunnel.close, hcls]

/-- Witness for C8: the connected state `sDial` holds exactly the watcher of
epoch 1; firing it on the already-reset `sClosed` state only retires the
watcher, while firing it on the live `sDial` state forces the reset. -/
theorem c8_watcher_witness :
    initTunnel.watchers.Nodup
    ∧ sDial.watchers = [1]
    ∧ sDial.epoch = 1
    ∧ watcherFire none 1 sClosed = { sClosed with watchers := [] }
    ∧ (watcherFire none 1 sDial).resetClosed = true := by
  refine ⟨(c8_watcher.1 initTunnel Reachable.init).1, by decide, by decide,
    ?_, ?_⟩
  · exact (c8_watcher.2.2.2.2 none 1 sClosed (by decide)).trans (by decide)
  · exact (c8_watcher.2.2.2.1 none 1 sDial (by decide) (by decide)).1

end Sshdb
